import Mathlib

/-!
Verification of the TradeOmen AI microservice chat/tagging API against its
specification.  The Python source (src/app/apis/chat.py, src/app/schemas/
llm_schemas.py) is shallowly embedded below: pydantic models become
structures, the FastAPI endpoint bodies become pure functions over an
oracle that stands for the Gemini provider, and the observable side
effects (provider round trips, tool invocations) are returned as an
explicit event trace so that call counts can be stated and proved.
-/

/-! ## Data model (src/app/schemas/llm_schemas.py) -/

namespace MessageRole

/-- Roles in a chat conversation (class MessageRole). -/
def USER : String := "user"

def ASSISTANT : String := "assistant"

def SYSTEM : String := "system"

def TOOL : String := "tool"

end MessageRole

/-- A single message in a chat session (class ChatMessage).  `tool_calls`
entries are dictionaries in the source; they are rendered as association
lists of string key/value pairs (no endpoint ever reads them). -/
structure ChatMessage where
  role : String
  content : String
  tool_calls : Option (List (List (String × String)))
  tool_call_id : Option String
deriving DecidableEq, Repr

/-- The chat payload received from the main backend (class ChatRequest). -/
structure ChatRequest where
  user_id : String
  user_plan : String
  history : List ChatMessage
  new_message : ChatMessage
deriving DecidableEq, Repr

/-- Schema for the trade auto-tagging request (class TaggingRequest). -/
structure TaggingRequest where
  notes : String
deriving DecidableEq, Repr

/-- Structured JSON response for tagging (class TaggingResponse). -/
structure TaggingResponse where
  tags : List String
deriving DecidableEq, Repr

/-! ## Provider wire model (google.genai types, as used by chat.py) -/

/-- A part of a Gemini content: plain text, or a function response carrying
a tool result (Part.from_text / Part.from_function_response). -/
inductive GenPart where
  | text : String → GenPart
  | functionResponse : String → String → GenPart
deriving DecidableEq, Repr

/-- One entry of the `contents` list sent to the provider
(genai_types.Content). -/
structure GenContent where
  role : String
  parts : List GenPart
deriving DecidableEq, Repr

/-- A function call requested by the model (entry of
`gemini_response.function_calls`); `args` is the arguments mapping the
model supplied, as an association list. -/
structure FunctionCall where
  name : String
  args : List (String × String)
deriving DecidableEq, Repr

/-- The provider response observed by chat_with_ai: the requested function
calls (empty list when the completion is plain text) and the completion
text. -/
structure GeminiResponse where
  function_calls : List FunctionCall
  text : String
deriving DecidableEq, Repr

/-- The exception raised by FastAPI endpoints (fastapi.HTTPException). -/
structure HTTPError where
  status_code : Nat
  detail : String
deriving DecidableEq, Repr

/-! ## Observable events

Each endpoint returns, next to its result, the ordered trace of its side
effects: every provider round trip (generate_content) with the contents it
was given, and every invocation of the tool function with the user id it
received.  The trace makes the spec sentences about call counts and call
ordering statable. -/

/-- One observable side effect of a chat request. -/
inductive ChatEvent where
  | gatewayCall : List GenContent → ChatEvent
  | toolCall : String → ChatEvent
deriving DecidableEq, Repr

/-- Whether an event is a provider round trip. -/
def ChatEvent.isGateway : ChatEvent → Bool
  | .gatewayCall _ => true
  | .toolCall _ => false

/-- Whether an event is a tool invocation. -/
def ChatEvent.isTool : ChatEvent → Bool
  | .gatewayCall _ => false
  | .toolCall _ => true

/-- Number of provider round trips in a trace. -/
def countGateway (evs : List ChatEvent) : Nat :=
  (evs.filter ChatEvent.isGateway).length

/-- Number of tool invocations in a trace. -/
def countTool (evs : List ChatEvent) : Nat :=
  (evs.filter ChatEvent.isTool).length

/-! ## Tool function and role mapping (src/app/apis/chat.py) -/

/-- Mocked anonymized trade data fetch (async def get_user_trade_summary).
Returns the f-string of the source verbatim. -/
def get_user_trade_summary (user_id : String) : String :=
  "\n        [Anonymized Trade Summary for ID " ++ user_id ++ "]:\n" ++
  "        - Total Trades in Q4: 150\n" ++
  "        - Net P/L: +$12,500\n" ++
  "        - Best Strategy: Breakout (70% Win Rate)\n" ++
  "        - Worst Mistake: Over-leveraging on Fridays.\n    "

/-- The role mapping applied to each history message when building
`gemini_contents`: `"user" if msg.role in [MessageRole.USER,
MessageRole.TOOL] else "model"`. -/
def roleToGemini (role : String) : String :=
  if role = MessageRole.USER ∨ role = MessageRole.TOOL then "user" else "model"

/-- One step of the `for msg in request.history` loop: a history message
becomes a provider content with the mapped role and a single text part. -/
def toGeminiContent (msg : ChatMessage) : GenContent :=
  { role := roleToGemini msg.role, parts := [GenPart.text msg.content] }

/-! ## Chat endpoint (async def chat_with_ai)

The provider is an oracle `List GenContent → GeminiResponse` giving the
response of `LLM_CLIENT.models.generate_content` for each contents list
(the claims under verification all concern runs in which the provider
returns normally).  `llm_client_ok` is whether `LLM_CLIENT` is non-None.
`session_id` is the path parameter.  The result is the endpoint value
(HTTP error or ChatMessage) paired with the event trace. -/

/-- Shallow embedding of the body of `chat_with_ai`. -/
def chat_with_ai (session_id : String) (request : ChatRequest)
    (llm_client_ok : Bool)
    (provider : List GenContent → GeminiResponse) :
    Except HTTPError ChatMessage × List ChatEvent :=
  if ¬ llm_client_ok then
    (Except.error ⟨500, "AI Service is not initialized."⟩, [])
  else
    let gemini_contents := request.history.map toGeminiContent
    let gemini_response := provider gemini_contents
    match gemini_response.function_calls with
    | first_call :: _ =>
      if first_call.name = "get_user_trade_summary" then
        let tool_output := get_user_trade_summary request.user_id
        let contents2 := gemini_contents ++
          [{ role := "tool",
             parts := [GenPart.functionResponse "get_user_trade_summary" tool_output] }]
        let tool_response := provider contents2
        (Except.ok ⟨MessageRole.ASSISTANT, tool_response.text, none, none⟩,
         [ChatEvent.gatewayCall gemini_contents,
          ChatEvent.toolCall request.user_id,
          ChatEvent.gatewayCall contents2])
      else
        (Except.ok ⟨MessageRole.ASSISTANT, "ERROR: Unknown tool requested.", none, none⟩,
         [ChatEvent.gatewayCall gemini_contents])
    | [] =>
      (Except.ok ⟨MessageRole.ASSISTANT, gemini_response.text, none, none⟩,
       [ChatEvent.gatewayCall gemini_contents])

/-! ## Tagging endpoint (async def tag_trade)

The provider oracle takes the prompt and either raises an APIError
(`Except.error`) or returns `response.text` (`Except.ok`).  `validate`
stands for the external pydantic call
`TaggingResponse.model_validate_json(response.text)`: `none` means the
text does not validate against the schema, in which case pydantic raises a
ValidationError — an Exception that is not an APIError, so it falls to the
endpoint's generic `except Exception` handler. -/

/-- One observable side effect of a tagging request. -/
inductive TagEvent where
  | providerCall : String → TagEvent
deriving DecidableEq, Repr

/-- The tagging prompt built by the endpoint (f-string with the notes
embedded; whitespace kept as in the source). -/
def tagging_prompt (notes : String) : String :=
  "\n    Analyze the following trading journal notes and generate a list of \n" ++
  "    relevant tags. The tags should be short (e.g., 'FOMO', 'Breakout', \n" ++
  "    'Poor Exit', 'Reversal', 'Good R:R'). \n" ++
  "    Only return the JSON object.\n\n" ++
  "    NOTES: " ++ notes ++ "\n    "

/-- Shallow embedding of the body of `tag_trade`. -/
def tag_trade (request : TaggingRequest) (llm_client_ok : Bool)
    (provider : String → Except String String)
    (validate : String → Option TaggingResponse) :
    Except HTTPError TaggingResponse × List TagEvent :=
  if ¬ llm_client_ok then
    (Except.error ⟨500, "AI Service is not initialized."⟩, [])
  else
    let prompt := tagging_prompt request.notes
    match provider prompt with
    | Except.error e =>
      (Except.error ⟨502, "Gemini API Error during tagging: " ++ e⟩,
       [TagEvent.providerCall prompt])
    | Except.ok text =>
      match validate text with
      | some resp => (Except.ok resp, [TagEvent.providerCall prompt])
      | none =>
        (Except.error
          ⟨500, "An unexpected error occurred: validation error for TaggingResponse"⟩,
         [TagEvent.providerCall prompt])

/-! ## Route boundary (FastAPI dependency verify_internal_auth)

Both non-health routes declare `dependencies=[VerifyInternalAuth]`.
FastAPI resolves the dependency before running the endpoint body; the
required header being absent is rejected by FastAPI request validation
(status 422) even earlier.  `header` is the value of the
`X-Microservice-Auth` request header, `secret` the configured
`settings.AI_SERVICE_SECRET_KEY`. -/

/-- Shallow embedding of `verify_internal_auth`. -/
def verify_internal_auth (auth_key : String) (secret : String) :
    Except HTTPError Bool :=
  if auth_key ≠ secret then
    Except.error ⟨401, "Invalid microservice authentication key."⟩
  else
    Except.ok true

/-- The POST /chat/\x7bsession_id\x7d route: FastAPI header validation,
then the auth dependency, then the endpoint body. -/
def chat_route (secret : String) (header : Option String)
    (session_id : String) (request : ChatRequest) (llm_client_ok : Bool)
    (provider : List GenContent → GeminiResponse) :
    Except HTTPError ChatMessage × List ChatEvent :=
  match header with
  | none => (Except.error ⟨422, "Field required"⟩, [])
  | some auth_key =>
    match verify_internal_auth auth_key secret with
    | Except.error e => (Except.error e, [])
    | Except.ok _ => chat_with_ai session_id request llm_client_ok provider

/-- The POST /tag-trade route: FastAPI header validation, then the auth
dependency, then the endpoint body. -/
def tag_route (secret : String) (header : Option String)
    (request : TaggingRequest) (llm_client_ok : Bool)
    (provider : String → Except String String)
    (validate : String → Option TaggingResponse) :
    Except HTTPError TaggingResponse × List TagEvent :=
  match header with
  | none => (Except.error ⟨422, "Field required"⟩, [])
  | some auth_key =>
    match verify_internal_auth auth_key secret with
    | Except.error e => (Except.error e, [])
    | Except.ok _ => tag_trade request llm_client_ok provider validate

/-! ## Concrete fixtures used by witnesses and counterexamples -/

/-- A history message from the user, as in the spec scenario. -/
def demoHistoryMsg : ChatMessage :=
  { role := "user", content := "What is my win rate?", tool_calls := none,
    tool_call_id := none }

/-- A latest user message. -/
def demoNewMsg : ChatMessage :=
  { role := "user", content := "Hello", tool_calls := none,
    tool_call_id := none }

/-- A chat request with a one-message history. -/
def demoRequest : ChatRequest :=
  { user_id := "u1", user_plan := "pro", history := [demoHistoryMsg],
    new_message := demoNewMsg }

/-- A provider oracle which requests the registered tool on the first
query (one content in the list) and answers in text on the second. -/
def demoToolProvider : List GenContent → GeminiResponse := fun contents =>
  if contents.length ≤ 1 then
    { function_calls := [{ name := "get_user_trade_summary",
                           args := [("user_id", "u1")] }],
      text := "first step" }
  else
    { function_calls := [], text := "Your win rate is 70%." }

/-- A provider oracle which always answers in plain text. -/
def demoTextProvider : List GenContent → GeminiResponse := fun _ =>
  { function_calls := [], text := "Markets are closed today." }

/-- A provider oracle which requests an unrecognized tool name. -/
def demoUnknownToolProvider : List GenContent → GeminiResponse := fun _ =>
  { function_calls := [{ name := "delete_account", args := [] }],
    text := "unused" }

/-- A provider oracle whose model-supplied user_id argument differs from
the user_id of the request body. -/
def demoMismatchProvider : List GenContent → GeminiResponse := fun contents =>
  if contents.length ≤ 1 then
    { function_calls := [{ name := "get_user_trade_summary",
                           args := [("user_id", "m-user")] }],
      text := "first step" }
  else
    { function_calls := [], text := "done" }

/-- A chat request whose user_id differs from the one the model supplies
via demoMismatchProvider. -/
def demoMismatchRequest : ChatRequest :=
  { user_id := "req-user", user_plan := "free", history := [demoHistoryMsg],
    new_message := demoNewMsg }

/-- A chat request with an empty history and a fresh new_message, showing
what the endpoint sends when everything the user said is in new_message. -/
def demoEmptyHistoryRequest : ChatRequest :=
  { user_id := "u1", user_plan := "pro", history := [],
    new_message := demoNewMsg }

/-! ## Claim theorems -/

/-- Claim C1: when the first completion requests the registered tool
get_user_trade_summary, the tool runs exactly once, the provider is
queried exactly twice, and the answer is the text of the second
completion (the provider's response to the contents with the tool result
appended). -/
theorem chat_registered_tool_orchestration
    (session_id : String) (request : ChatRequest)
    (provider : List GenContent → GeminiResponse)
    (first_call : FunctionCall) (rest : List FunctionCall)
    (hcalls : (provider (request.history.map toGeminiContent)).function_calls
      = first_call :: rest)
    (hname : first_call.name = "get_user_trade_summary") :
    countTool (chat_with_ai session_id request true provider).2 = 1 ∧
    countGateway (chat_with_ai session_id request true provider).2 = 2 ∧
    (chat_with_ai session_id request true provider).1 =
      Except.ok
        { role := MessageRole.ASSISTANT,
          content := (provider (request.history.map toGeminiContent ++
            [{ role := "tool",
               parts := [GenPart.functionResponse "get_user_trade_summary"
                 (get_user_trade_summary request.user_id)] }])).text,
          tool_calls := none, tool_call_id := none } := by
  simp [chat_with_ai, hcalls, hname, countTool, countGateway,
    ChatEvent.isTool, ChatEvent.isGateway]

/-- Claim C1 witness at the spec scenario. -/
theorem chat_registered_tool_orchestration_witness :
    countTool (chat_with_ai "s1" demoRequest true demoToolProvider).2 = 1 ∧
    countGateway (chat_with_ai "s1" demoRequest true demoToolProvider).2 = 2 ∧
    (chat_with_ai "s1" demoRequest true demoToolProvider).1 =
      Except.ok
        { role := MessageRole.ASSISTANT,
          content := (demoToolProvider (demoRequest.history.map toGeminiContent ++
            [{ role := "tool",
               parts := [GenPart.functionResponse "get_user_trade_summary"
                 (get_user_trade_summary demoRequest.user_id)] }])).text,
          tool_calls := none, tool_call_id := none } :=
  chat_registered_tool_orchestration "s1" demoRequest demoToolProvider
    { name := "get_user_trade_summary", args := [("user_id", "u1")] } []
    (by decide) (by decide)

/-- Claim C2 counterexample: with the model supplying user_id "m-user" in
its tool-call arguments and the request body carrying user_id "req-user",
the tool is invoked with "req-user" and never with "m-user" — the
arguments the model supplied are ignored. -/
theorem chat_tool_args_from_model_counterexample :
    (demoMismatchProvider (demoMismatchRequest.history.map toGeminiContent)).function_calls
      = [{ name := "get_user_trade_summary", args := [("user_id", "m-user")] }] ∧
    ChatEvent.toolCall "req-user" ∈
      (chat_with_ai "s1" demoMismatchRequest true demoMismatchProvider).2 ∧
    ChatEvent.toolCall "m-user" ∉
      (chat_with_ai "s1" demoMismatchRequest true demoMismatchProvider).2 ∧
    "req-user" ≠ "m-user" := by
  refine ⟨by decide, by decide, by decide, by decide⟩

/-- Claim C2 amended: when the first completion requests the registered
tool, the tool is invoked exactly once, with the user_id taken from the
ChatRequest body (request.user_id), whatever arguments the model
supplied. -/
theorem chat_tool_invoked_with_request_user_id
    (session_id : String) (request : ChatRequest)
    (provider : List GenContent → GeminiResponse)
    (first_call : FunctionCall) (rest : List FunctionCall)
    (hcalls : (provider (request.history.map toGeminiContent)).function_calls
      = first_call :: rest)
    (hname : first_call.name = "get_user_trade_summary") :
    ((chat_with_ai session_id request true provider).2.filter ChatEvent.isTool)
      = [ChatEvent.toolCall request.user_id] := by
  simp [chat_with_ai, hcalls, hname, ChatEvent.isTool]

/-- Claim C2 amended witness. -/
theorem chat_tool_invoked_with_request_user_id_witness :
    ((chat_with_ai "s1" demoMismatchRequest true demoMismatchProvider).2.filter
      ChatEvent.isTool) = [ChatEvent.toolCall demoMismatchRequest.user_id] :=
  chat_tool_invoked_with_request_user_id "s1" demoMismatchRequest
    demoMismatchProvider
    { name := "get_user_trade_summary", args := [("user_id", "m-user")] } []
    (by decide) (by decide)

/-- Claim C3, evaluated at the failing input: for a request with empty
history and new_message "Hello", the contents of the one provider query
are the empty list — new_message is never sent to the model, contradicting
the claim that the first query is history with new_message appended. -/
theorem chat_new_message_never_sent :
    demoEmptyHistoryRequest.new_message.content = "Hello" ∧
    (chat_with_ai "s1" demoEmptyHistoryRequest true demoTextProvider).2
      = [ChatEvent.gatewayCall []] ∧
    (demoEmptyHistoryRequest.history ++ [demoEmptyHistoryRequest.new_message]).map
        toGeminiContent
      ≠ [] := by
  refine ⟨by decide, by decide, by decide⟩

/-- Claim C3 companion: in general the first query sends exactly the
mapped history, for every request — new_message is dropped whatever the
history is. -/
theorem chat_first_query_is_history_only
    (session_id : String) (request : ChatRequest)
    (provider : List GenContent → GeminiResponse)
    (hcalls : (provider (request.history.map toGeminiContent)).function_calls = []) :
    (chat_with_ai session_id request true provider).2
      = [ChatEvent.gatewayCall (request.history.map toGeminiContent)] := by
  simp [chat_with_ai, hcalls]

/-- Claim C3 companion witness. -/
theorem chat_first_query_is_history_only_witness :
    (chat_with_ai "s1" demoEmptyHistoryRequest true demoTextProvider).2
      = [ChatEvent.gatewayCall (demoEmptyHistoryRequest.history.map toGeminiContent)] :=
  chat_first_query_is_history_only "s1" demoEmptyHistoryRequest demoTextProvider
    (by decide)

/-- Claim C4: when the first completion requests an unrecognized tool
name, the result is the literal fallback text, the provider is queried
exactly once, the tool never runs, and no HTTP error is raised. -/
theorem chat_unknown_tool_fallback
    (session_id : String) (request : ChatRequest)
    (provider : List GenContent → GeminiResponse)
    (first_call : FunctionCall) (rest : List FunctionCall)
    (hcalls : (provider (request.history.map toGeminiContent)).function_calls
      = first_call :: rest)
    (hname : first_call.name ≠ "get_user_trade_summary") :
    (chat_with_ai session_id request true provider).1 =
      Except.ok
        { role := MessageRole.ASSISTANT,
          content := "ERROR: Unknown tool requested.",
          tool_calls := none, tool_call_id := none } ∧
    countGateway (chat_with_ai session_id request true provider).2 = 1 ∧
    countTool (chat_with_ai session_id request true provider).2 = 0 := by
  simp [chat_with_ai, hcalls, hname, countGateway, countTool,
    ChatEvent.isGateway, ChatEvent.isTool]

/-- Claim C4 witness. -/
theorem chat_unknown_tool_fallback_witness :
    (chat_with_ai "s1" demoRequest true demoUnknownToolProvider).1 =
      Except.ok
        { role := MessageRole.ASSISTANT,
          content := "ERROR: Unknown tool requested.",
          tool_calls := none, tool_call_id := none } ∧
    countGateway (chat_with_ai "s1" demoRequest true demoUnknownToolProvider).2 = 1 ∧
    countTool (chat_with_ai "s1" demoRequest true demoUnknownToolProvider).2 = 0 :=
  chat_unknown_tool_fallback "s1" demoRequest demoUnknownToolProvider
    { name := "delete_account", args := [] } [] (by decide) (by decide)

/-- Claim C5: when the first completion is plain text (no function call
requested), the result is that text verbatim as an assistant message and
the tool never runs. -/
theorem chat_plain_text_verbatim
    (session_id : String) (request : ChatRequest)
    (provider : List GenContent → GeminiResponse)
    (hcalls : (provider (request.history.map toGeminiContent)).function_calls = []) :
    (chat_with_ai session_id request true provider).1 =
      Except.ok
        { role := MessageRole.ASSISTANT,
          content := (provider (request.history.map toGeminiContent)).text,
          tool_calls := none, tool_call_id := none } ∧
    countTool (chat_with_ai session_id request true provider).2 = 0 := by
  simp [chat_with_ai, hcalls, countTool, ChatEvent.isTool]

/-- Claim C5 witness. -/
theorem chat_plain_text_verbatim_witness :
    (chat_with_ai "s1" demoRequest true demoTextProvider).1 =
      Except.ok
        { role := MessageRole.ASSISTANT,
          content := (demoTextProvider (demoRequest.history.map toGeminiContent)).text,
          tool_calls := none, tool_call_id := none } ∧
    countTool (chat_with_ai "s1" demoRequest true demoTextProvider).2 = 0 :=
  chat_plain_text_verbatim "s1" demoRequest demoTextProvider (by decide)

/-- An assistant-role message, used to exercise the model side of the
role mapping. -/
def demoAssistantMsg : ChatMessage :=
  { role := "assistant", content := "Here is your summary.",
    tool_calls := none, tool_call_id := none }

/-- Whether an endpoint result is an HTTP error. -/
def exceptIsError {α : Type} : Except HTTPError α → Bool
  | Except.error _ => true
  | Except.ok _ => false

/-- Claim C6: the history-to-provider role mapping is the total function
toGeminiContent; a message with role user or tool maps to the requesting
party role "user", and a message with role assistant or system maps to
the model party role "model". -/
theorem role_mapping_total_deterministic (msg : ChatMessage) :
    ((msg.role = MessageRole.USER ∨ msg.role = MessageRole.TOOL) →
      (toGeminiContent msg).role = "user") ∧
    ((msg.role = MessageRole.ASSISTANT ∨ msg.role = MessageRole.SYSTEM) →
      (toGeminiContent msg).role = "model") := by
  constructor
  · intro h
    simp [toGeminiContent, roleToGemini, h]
  · intro h
    rcases h with h | h <;>
      simp [toGeminiContent, roleToGemini, h, MessageRole.USER,
        MessageRole.TOOL, MessageRole.ASSISTANT, MessageRole.SYSTEM]

/-- Claim C6 witness: the mapping evaluated on a user message and on an
assistant message. -/
theorem role_mapping_total_deterministic_witness :
    (toGeminiContent demoHistoryMsg).role = "user" ∧
    (toGeminiContent demoAssistantMsg).role = "model" :=
  ⟨(role_mapping_total_deterministic demoHistoryMsg).1 (Or.inl rfl),
   (role_mapping_total_deterministic demoAssistantMsg).2 (Or.inl rfl)⟩

/-- Claim C7 counterexample: when the provider returns text that does not
validate against the TaggingResponse schema, the endpoint fails with
status 500 (the generic handler), not with the 502 the claim states. -/
theorem tag_malformed_output_not_502_counterexample :
    (tag_trade { notes := "Sold too early out of fear" } true
        (fun _ => Except.ok "no tags here") (fun _ => none)).1
      = Except.error
          ⟨500, "An unexpected error occurred: validation error for TaggingResponse"⟩ ∧
    (500 : Nat) ≠ 502 := by
  exact ⟨rfl, by decide⟩

/-- Claim C7 amended: a provider response that does not validate against
the TaggingResponse schema makes the tagging operation fail with the
generic 500 UnexpectedError (pydantic's ValidationError is not an
APIError, so it is not mapped to 502). -/
theorem tag_malformed_output_maps_to_500
    (request : TaggingRequest)
    (provider : String → Except String String)
    (validate : String → Option TaggingResponse)
    (text : String)
    (hprov : provider (tagging_prompt request.notes) = Except.ok text)
    (hval : validate text = none) :
    (tag_trade request true provider validate).1
      = Except.error
          ⟨500, "An unexpected error occurred: validation error for TaggingResponse"⟩ := by
  simp [tag_trade, hprov, hval]

/-- Claim C7 amended witness. -/
theorem tag_malformed_output_maps_to_500_witness :
    (tag_trade { notes := "Sold too early out of fear" } true
        (fun _ => Except.ok "no tags here") (fun _ => none)).1
      = Except.error
          ⟨500, "An unexpected error occurred: validation error for TaggingResponse"⟩ :=
  tag_malformed_output_maps_to_500 { notes := "Sold too early out of fear" }
    (fun _ => Except.ok "no tags here") (fun _ => none) "no tags here" rfl rfl

/-- Claim C8: with the provider client uninitialized, both endpoints fail
immediately with 500 and an empty event trace — no provider request is
ever attempted. -/
theorem client_uninitialized_rejected_before_call
    (session_id : String) (creq : ChatRequest)
    (cprov : List GenContent → GeminiResponse)
    (treq : TaggingRequest) (tprov : String → Except String String)
    (validate : String → Option TaggingResponse) :
    chat_with_ai session_id creq false cprov
      = (Except.error ⟨500, "AI Service is not initialized."⟩, []) ∧
    tag_trade treq false tprov validate
      = (Except.error ⟨500, "AI Service is not initialized."⟩, []) := by
  exact ⟨rfl, rfl⟩

/-- Claim C9: a request whose X-Microservice-Auth header is missing or
differs from the secret is rejected on both protected routes with an
empty event trace (no LLM or tool call), and a present-but-wrong header
yields exactly status 401 with the fixed detail string — a literal that
is the same for every secret, so the body cannot leak the expected
value. -/
theorem auth_rejected_before_any_call
    (secret k : String) (header : Option String) (session_id : String)
    (creq : ChatRequest) (llm_client_ok : Bool)
    (cprov : List GenContent → GeminiResponse)
    (treq : TaggingRequest) (tprov : String → Except String String)
    (validate : String → Option TaggingResponse)
    (hbad : header ≠ some secret) (hk : k ≠ secret) :
    (chat_route secret header session_id creq llm_client_ok cprov).2 = [] ∧
    (tag_route secret header treq llm_client_ok tprov validate).2 = [] ∧
    exceptIsError (chat_route secret header session_id creq llm_client_ok cprov).1
      = true ∧
    exceptIsError (tag_route secret header treq llm_client_ok tprov validate).1
      = true ∧
    (chat_route secret (some k) session_id creq llm_client_ok cprov).1
      = Except.error ⟨401, "Invalid microservice authentication key."⟩ ∧
    (tag_route secret (some k) treq llm_client_ok tprov validate).1
      = Except.error ⟨401, "Invalid microservice authentication key."⟩ := by
  cases header with
  | none =>
    simp [chat_route, tag_route, verify_internal_auth, hk, exceptIsError]
  | some a =>
    have ha : a ≠ secret := by
      intro h
      exact hbad (by rw [h])
    simp [chat_route, tag_route, verify_internal_auth, ha, hk, exceptIsError]

/-- Claim C9 witness: a wrong header on both routes, with the demo
request bodies. -/
theorem auth_rejected_before_any_call_witness :
    (chat_route "shh" (some "wrong") "s1" demoRequest true demoTextProvider).2 = [] ∧
    (tag_route "shh" (some "wrong") { notes := "n" } true
        (fun _ => Except.ok "t") (fun _ => none)).2 = [] ∧
    exceptIsError
      (chat_route "shh" (some "wrong") "s1" demoRequest true demoTextProvider).1
      = true ∧
    exceptIsError
      (tag_route "shh" (some "wrong") { notes := "n" } true
        (fun _ => Except.ok "t") (fun _ => none)).1 = true ∧
    (chat_route "shh" (some "wrong") "s1" demoRequest true demoTextProvider).1
      = Except.error ⟨401, "Invalid microservice authentication key."⟩ ∧
    (tag_route "shh" (some "wrong") { notes := "n" } true
        (fun _ => Except.ok "t") (fun _ => none)).1
      = Except.error ⟨401, "Invalid microservice authentication key."⟩ :=
  auth_rejected_before_any_call "shh" "wrong" (some "wrong") "s1" demoRequest
    true demoTextProvider { notes := "n" } (fun _ => Except.ok "t")
    (fun _ => none) (by intro h; injection h with h; exact absurd h (by decide))
    (by decide)

/-- Claim C10: the session_id path parameter has no effect on the chat
endpoint: two runs differing only in session_id produce the same result
and the same event trace. -/
theorem chat_session_id_no_effect
    (sid1 sid2 : String) (request : ChatRequest) (llm_client_ok : Bool)
    (provider : List GenContent → GeminiResponse) :
    chat_with_ai sid1 request llm_client_ok provider
      = chat_with_ai sid2 request llm_client_ok provider := rfl
